import Mathlib

/-!
Shallow embedding of the cifras_api backend (src/server.js, with the
/api/scrape revision in src/unnamed/part_001) for verifying its
natural-language specification.

The HTML page is modelled structurally: the parts the extractor queries
(`$('pre')` contents, `$('h1.t1')` text, `$('h2.t3 a.t1')` text, the
`ol.list-links.art_musics.top-songs a.al-link` entries, the
`#__NEXT_DATA__` script island and `iframe` sources) are fields of a
`Page` record.  JSON values are modelled by an inductive `Json`; the
outcome of `JSON.parse` on the data island is `Except Unit Json`
(`Except.error` = malformed island).  JavaScript truthiness is modelled
explicitly where the code relies on it.
-/

namespace CifrasApi

/-- JSON values, as produced by `JSON.parse` (object keys assumed unique). -/
inductive Json where
  | null : Json
  | str (s : String) : Json
  | num (n : Int) : Json
  | boolean (b : Bool) : Json
  | obj (fields : List (String × Json)) : Json
  | arr (elems : List Json) : Json

/-- JavaScript truthiness of a JSON value. -/
def Json.truthy : Json → Bool
  | .null => false
  | .str s => !s.isEmpty
  | .num n => n != 0
  | .boolean b => b
  | .obj _ => true
  | .arr _ => true

/-- Property access `v?.k` (optional chaining): field lookup on objects,
`undefined` (`none`) on anything else. -/
def Json.get? : Json → String → Option Json
  | .obj fields, k => fields.lookup k
  | _, _ => none

/-- `a || b` on possibly-undefined JSON values: first truthy operand, else `none`
(the code assigns `null`, which we identify with `none`). -/
def jsTruthyOpt (a : Option Json) : Option Json :=
  match a with
  | some v => if v.truthy then some v else none
  | none => none

/-- JS truthiness of a possibly-absent string (query params, env vars). -/
def optTruthy (a : Option String) : Bool :=
  match a with
  | some s => !s.data.isEmpty
  | none => false

/-- Whether `pat` is a prefix of `l` (structural, so the kernel can
evaluate it). -/
def listStartsWith : List Char → List Char → Bool
  | _, [] => true
  | [], _ :: _ => false
  | a :: as, b :: bs => a == b && listStartsWith as bs

/-- Whether `pat` occurs somewhere in `l`. -/
def listContainsSub : List Char → List Char → Bool
  | [], pat => pat.isEmpty
  | c :: rest, pat => listStartsWith (c :: rest) pat || listContainsSub rest pat

/-- `s.includes(sub)`: substring containment, as JavaScript `String.includes`. -/
def strIncludes (s sub : String) : Bool :=
  listContainsSub s.data sub.data

/-- `s.endsWith(suffix)` over the character lists. -/
def strEndsWith (s suffix : String) : Bool :=
  listStartsWith s.data.reverse suffix.data.reverse

/-- Replace the first occurrence of `pat` in `l` by `rep`, leaving the rest
unchanged (the semantics of JavaScript `String.replace` with a plain-string
pattern). -/
def replaceFirstAux : List Char → List Char → List Char → List Char
  | [], _, _ => []
  | c :: rest, pat, rep =>
    if listStartsWith (c :: rest) pat then rep ++ (c :: rest).drop pat.length
    else c :: replaceFirstAux rest pat rep

/-- `s.replace(pat, rep)` with a plain-string pattern: replaces the FIRST
occurrence only. -/
def replaceFirstWith (s pat rep : String) : String :=
  if pat.data.isEmpty then ⟨rep.data ++ s.data⟩
  else ⟨replaceFirstAux s.data pat.data rep.data⟩

/-- The suffix of `l` after the first occurrence of `pat`, or `none` when
`pat` does not occur. -/
def afterFirst : List Char → List Char → Option (List Char)
  | [], pat => if pat.isEmpty then some [] else none
  | c :: rest, pat =>
    if listStartsWith (c :: rest) pat then some ((c :: rest).drop pat.length)
    else afterFirst rest pat

/-- JavaScript `s.split(sep)` for a one-character separator. -/
def splitOnChar (sep : Char) : List Char → List (List Char)
  | [] => [[]]
  | c :: rest =>
    let r := splitOnChar sep rest
    if c = sep then [] :: r
    else
      match r with
      | [] => [[c]]
      | h :: t => (c :: h) :: t

/-- Leading-quote removal, one character at most (the `^"` alternative of the
regex `/^"|"$/g`). -/
def dropLeadQuote (l : List Char) : List Char :=
  match l with
  | [] => []
  | c :: rest => if c = '"' then rest else c :: rest

/-- `dropWhile isWhitespace`: the front half of `String.prototype.trim`. -/
def trimFront (l : List Char) : List Char := l.dropWhile Char.isWhitespace

/-- JavaScript `s.trim()` over the character list. -/
def jsTrimList (l : List Char) : List Char :=
  ((trimFront l).reverse |> trimFront).reverse

/-- `url.trim().replace(/^"|"$/g, '')` from the /api/cifra and /api/scrape
handlers: trim, then strip one leading and one trailing double quote. -/
def cleanUrlList (l : List Char) : List Char :=
  (dropLeadQuote ((dropLeadQuote (jsTrimList l)).reverse)).reverse

def cleanUrl (s : String) : String := ⟨cleanUrlList s.data⟩

/-- An inline node of a preformatted chord block: a text run or a `<b>`
emphasis element holding a chord name. -/
inductive PreNode where
  | text (s : String) : PreNode
  | b (s : String) : PreNode
deriving DecidableEq, Repr

/-- `pre.find('b').each(... replaceWith('[' + text + ']') ...)` followed by
`pre.text()`: each emphasis element becomes its text in square brackets,
text runs pass through. -/
def normalizePre : List PreNode → String
  | [] => ""
  | .text s :: rest => s ++ normalizePre rest
  | .b s :: rest => "[" ++ s ++ "]" ++ normalizePre rest

/-- `pre.text()` without the replacement step: plain concatenated text. -/
def preTextOf : List PreNode → String
  | [] => ""
  | .text s :: rest => s ++ preTextOf rest
  | .b s :: rest => s ++ preTextOf rest

/-- The parts of a fetched HTML page the extractor queries. -/
structure Page where
  /-- contents of each `<pre>` element, in document order -/
  pres : List (List PreNode)
  /-- `$('h1.t1').text()` -/
  h1 : String
  /-- `$('h2.t3 a.t1').text()` -/
  artistLink : String
  /-- `(title, href)` of each `ol.list-links.art_musics.top-songs a.al-link` -/
  topSongs : List (String × String)
  /-- the `#__NEXT_DATA__` script: absent, or its `JSON.parse` outcome -/
  nextData : Option (Except Unit Json)
  /-- `src` of each `iframe` element, in document order -/
  iframes : List String

/-- `pre.length ? pre.text() : null` after the `<b>` replacement: `none` when no
`<pre>` exists, otherwise the concatenated normalized text of all blocks. -/
def cifraContent (p : Page) : Option String :=
  if p.pres.isEmpty then none
  else some (String.join (p.pres.map normalizePre))

/-- Video-id recovery in /api/cifra (src/server.js): parse the `__NEXT_DATA__`
island; on success read `props.pageProps.video.youtube_id`, falling back to
`props.pageProps.songData.video.youtube_id`; a missing island or a parse
failure leaves the id `null`. -/
def extractVideoIdCifra (p : Page) : Option Json :=
  match p.nextData with
  | some (Except.ok j) =>
    let pageProps := (j.get? "props").bind (fun x => x.get? "pageProps")
    (jsTruthyOpt ((pageProps.bind (fun x => x.get? "video")).bind
        (fun x => x.get? "youtube_id"))).orElse
      (fun _ => jsTruthyOpt (((pageProps.bind (fun x => x.get? "songData")).bind
        (fun x => x.get? "video")).bind (fun x => x.get? "youtube_id")))
  | _ => none

/-- Video-id recovery in /api/scrape (src/unnamed/part_001): first
`iframe[src*="youtube.com/embed/"]`, last path segment of its `src`, query
string stripped. -/
def extractVideoIdScrape (p : Page) : Option String :=
  match p.iframes.find? (fun src => strIncludes src "youtube.com/embed/") with
  | none => none
  | some src =>
    let lastSeg := ((splitOnChar '/' src.data).reverse.headD [])
    some ⟨(splitOnChar '?' lastSeg).headD []⟩

/-- A song entry of an artist listing. -/
structure SongEntry where
  title : String
  url : String
deriving DecidableEq, Repr

/-- The classification outcome of /api/cifra on a fetched page. -/
inductive ExtractionResult where
  | chordSheet (artist song content : String) (videoId : Option Json) : ExtractionResult
  | artistListing (artist : String) (songs : List SongEntry) : ExtractionResult
  | notFound : ExtractionResult

/-- The artist-listing fallback: collect the top-songs links (absolute URLs by
prefixing the site origin), else `notFound`. -/
def artistOrNot (p : Page) : ExtractionResult :=
  if (p.topSongs.map
      (fun ts => SongEntry.mk ts.1 ("https://www.cifraclub.com.br" ++ ts.2))).isEmpty
  then .notFound
  else .artistListing p.h1 (p.topSongs.map
    (fun ts => SongEntry.mk ts.1 ("https://www.cifraclub.com.br" ++ ts.2)))

/-- Content classification of /api/cifra: a truthy (present and non-empty)
normalized chord block yields a chord sheet with headings and video id;
otherwise the artist-listing fallback is tried. -/
def extractContent (p : Page) : ExtractionResult :=
  match cifraContent p with
  | some c =>
    if c.data.isEmpty then artistOrNot p
    else .chordSheet p.artistLink p.h1 c (extractVideoIdCifra p)
  | none => artistOrNot p

/-! ### Search stage (/api/search, src/server.js) -/

/-- A Google Custom Search item as consumed by the handler. -/
structure GoogleItem where
  title : String
  link : String
deriving DecidableEq, Repr

/-- A search result produced for the frontend. -/
structure SearchResult where
  title : String
  url : String
deriving DecidableEq, Repr

/-- Title cleaning:
`title.replace(/ - Cifra Club$/, '').replace(/\x28letra da música\x29/, '')`
`.replace(/ - \x28versão simplificada\x29/, '').trim()`.  The first regex is
anchored at the end; the second's parentheses are literal (escaped); the
third's parentheses form a group, so the matched text has no parentheses. -/
def cleanTitle (t : String) : String :=
  let t1 : String :=
    if strEndsWith t " - Cifra Club" then ⟨t.data.take (t.data.length - 13)⟩ else t
  let t2 := replaceFirstWith t1 "(letra da música)" ""
  let t3 := replaceFirstWith t2 " - versão simplificada" ""
  ⟨jsTrimList t3.data⟩

/-- Canonical URL for deduplication:
`item.url.replace('/simplificada.html', '/')` (first occurrence). -/
def baseUrlOf (url : String) : String :=
  replaceFirstWith url "/simplificada.html" "/"

/-- The `Map`-based deduplication: keep the first-seen item per canonical URL,
in insertion order. -/
def dedupByBase : List SearchResult → List String → List SearchResult
  | [], _ => []
  | it :: rest, seen =>
    let base := baseUrlOf it.url
    if seen.contains base then dedupByBase rest seen
    else it :: dedupByBase rest (base :: seen)

/-- The search mapping of /api/search: drop lyrics-only links, clean titles,
deduplicate by canonical URL keeping the first-seen entry. -/
def extractSearchResults (items : List GoogleItem) : List SearchResult :=
  dedupByBase
    ((items.filter (fun it => !(strIncludes it.link "/letra/"))).map
      (fun it => SearchResult.mk (cleanTitle it.title) it.link))
    []

/-- Outcome of the upstream Google Custom Search call. -/
inductive Upstream where
  | ok (items : List GoogleItem) : Upstream
  | httpError (statusText : String) : Upstream
  | thrown (msg : String) : Upstream

/-- An HTTP response of the search route: an error status with a message, or a
200 with a JSON list of results. -/
inductive SearchOutcome where
  | error (status : Nat) (msg : String) : SearchOutcome
  | ok (results : List SearchResult) : SearchOutcome
deriving DecidableEq, Repr

/-- The /api/search handler (src/server.js): missing `q` → 400; missing API
configuration → 500; upstream failure or any thrown error → 200 with a single
`[DEBUG]` placeholder entry (the catch block); success → 200 with the mapped,
deduplicated results. -/
def handleSearch (q apiKey engineId : Option String) (upstream : Upstream) :
    SearchOutcome :=
  if !(optTruthy q) then
    .error 400 "O parâmetro de busca \"q\" é obrigatório."
  else if !(optTruthy apiKey) || !(optTruthy engineId) then
    .error 500 "Configuração da API do Google ausente no servidor."
  else
    match upstream with
    | .ok items => .ok (extractSearchResults items)
    | .httpError st =>
      .ok [SearchResult.mk ("[DEBUG] Erro Interno: Erro na API do Google: " ++ st) "#"]
    | .thrown msg =>
      .ok [SearchResult.mk ("[DEBUG] Erro Interno: " ++ msg) "#"]

/-! ### Chord route (/api/cifra, src/server.js) -/

/-- `CACHE_DURATION_MS = 1000 * 60 * 60` (one hour). -/
def CACHE_DURATION_MS : Nat := 1000 * 60 * 60

/-- A row of the `cifra_cache` table: the stored response data and its write
timestamp. -/
structure CacheEntry where
  data : ExtractionResult
  timestamp : Nat

/-- Outcome of fetching the chord page. -/
inductive FetchResult where
  | ok (page : Page) : FetchResult
  | httpError (statusText : String) : FetchResult
  | networkError (msg : String) : FetchResult

/-- Observable side effects of one /api/cifra request, in order. -/
inductive CifraEvent where
  | cacheQuery (url : String) : CifraEvent
  | fetchCall (url : String) : CifraEvent
  | cacheWrite (url : String) (d : ExtractionResult) : CifraEvent

/-- An HTTP response of the chord route: an error status with a message, or a
200 with the (cached or fresh) extraction payload. -/
inductive CifraResponse where
  | error (status : Nat) (msg : String) : CifraResponse
  | payload (r : ExtractionResult) : CifraResponse

/-- The cache check: a stored row counts as a hit only while
`Date.now() - timestamp < CACHE_DURATION_MS`; an older row is a miss. -/
def cacheLookup (cache : String → Option CacheEntry) (url : String) (now : Nat) :
    Option ExtractionResult :=
  match cache url with
  | some e => if now - e.timestamp < CACHE_DURATION_MS then some e.data else none
  | none => none

/-- The /api/cifra handler after URL cleaning and with the fetch abstracted:
domain check, cache lookup with the one-hour freshness window, fetch,
classification, cache write-back on success.  Returns the response together
with the ordered list of cache/fetch events. -/
def handleCifraClean (url : String) (cache : String → Option CacheEntry)
    (now : Nat) (doFetch : String → FetchResult) :
    CifraResponse × List CifraEvent :=
  if !(strIncludes url "cifraclub.com.br") then
    (.error 400 "A URL fornecida não é do Cifra Club.", [])
  else
    match cacheLookup cache url now with
    | some d => (.payload d, [.cacheQuery url])
    | none =>
      match doFetch url with
      | .httpError st =>
        (.error 500 ("Erro ao carregar a página da cifra: " ++ st),
         [.cacheQuery url, .fetchCall url])
      | .networkError msg =>
        (.error 500 msg, [.cacheQuery url, .fetchCall url])
      | .ok page =>
        match extractContent page with
        | .notFound =>
          (.error 404 "Nenhum conteúdo de cifra ou lista de músicas foi encontrado na página.",
           [.cacheQuery url, .fetchCall url])
        | r =>
          (.payload r, [.cacheQuery url, .fetchCall url, .cacheWrite url r])

/-- The full /api/cifra handler: presence check on the `url` query parameter
(JS truthiness), then cleaning, then `handleCifraClean`. -/
def handleCifra (urlParam : Option String) (cache : String → Option CacheEntry)
    (now : Nat) (doFetch : String → FetchResult) :
    CifraResponse × List CifraEvent :=
  match urlParam with
  | none => (.error 400 "O parâmetro \"url\" é obrigatório.", [])
  | some raw =>
    if raw.data.isEmpty then (.error 400 "O parâmetro \"url\" é obrigatório.", [])
    else handleCifraClean (cleanUrl raw) cache now doFetch

/-- Modelled from the spec (refinement-side definition, not from the code):
the host of a URL — the text between `://` and the next `/` — and whether it
is `cifraclub.com.br` or a subdomain of it.  This formalizes the spec's
"URL must belong to the target site's domain"; the code itself only tests
substring containment. -/
def specBelongsToCifraClub (url : String) : Bool :=
  let afterScheme : List Char :=
    match afterFirst url.data "://".data with
    | some l => l
    | none => []
  let host : String := ⟨(splitOnChar '/' afterScheme).headD []⟩
  host == "cifraclub.com.br" || strEndsWith host ".cifraclub.com.br"

/-- Whether a node is a `<b>` emphasis element. -/
def PreNode.isB : PreNode → Bool
  | .b _ => true
  | .text _ => false

/-! ### Concrete fixture pages and inputs used by the theorems -/

/-- The spec's concrete chord-sheet scenario:
`<pre>Intro: <b>G</b> <b>D</b></pre>`, `<h1 class="t1">Song</h1>`,
`<h2 class="t3"><a class="t1">Artist</a></h2>`. -/
def scenarioPage : Page :=
  Page.mk [[.text "Intro: ", .b "G", .text " ", .b "D"]] "Song" "Artist" [] none []

/-- A landing page: an empty `<pre>` block alongside a non-empty top-songs
list. -/
def landingPage : Page :=
  Page.mk [[]] "Artist" "" [("Song A", "/artist/song-a/")] none []

/-- The spec's concrete search-deduplication scenario. -/
def dedupItems : List GoogleItem :=
  [GoogleItem.mk "X - Cifra Club" "https://site/x/simplificada.html",
   GoogleItem.mk "X" "https://site/x/"]

/-- A chord page with no `__NEXT_DATA__` island but with a YouTube embed
frame. -/
def framePage : Page :=
  Page.mk [[.text "A"]] "Song" "Artist" [] none
    ["https://www.youtube.com/embed/dQw4w9WgXcQ?rel=0"]

/-- A data island carrying the video id at the primary nested path
`props.pageProps.video.youtube_id`. -/
def primaryIslandPage : Page :=
  Page.mk [[.text "A"]] "Song" "Artist" []
    (some (Except.ok (Json.obj [("props", Json.obj [("pageProps", Json.obj
      [("video", Json.obj [("youtube_id", Json.str "abc123")])])])])))
    []

/-- A data island carrying the video id only at the alternate nested path
`props.pageProps.songData.video.youtube_id`. -/
def alternateIslandPage : Page :=
  Page.mk [[.text "A"]] "Song" "Artist" []
    (some (Except.ok (Json.obj [("props", Json.obj [("pageProps", Json.obj
      [("songData", Json.obj [("video", Json.obj
        [("youtube_id", Json.str "def456")])])])])])))
    []

/-- A chord page whose `__NEXT_DATA__` island is present but malformed
(`JSON.parse` throws). -/
def malformedIslandPage : Page :=
  Page.mk [[.text "A"]] "Song" "Artist" [] (some (Except.error ())) []

/-! ## Theorems -/

/-- C2: the chord normalizer replaces every `<b>` element inside the
preformatted block with its text wrapped in square brackets and returns the
block's plain text; on the spec's concrete page the /api/cifra route
produces `{type: "cifra", artist: "Artist", song: "Song",
content: "Intro: [G] [D]", videoId: null}` (and writes it to the cache). -/
theorem concrete_chord_scenario :
    extractContent scenarioPage =
      .chordSheet "Artist" "Song" "Intro: [G] [D]" none ∧
    handleCifra (some "https://www.cifraclub.com.br/test/") (fun _ => none) 0
        (fun _ => .ok scenarioPage) =
      (.payload (.chordSheet "Artist" "Song" "Intro: [G] [D]" none),
       [.cacheQuery "https://www.cifraclub.com.br/test/",
        .fetchCall "https://www.cifraclub.com.br/test/",
        .cacheWrite "https://www.cifraclub.com.br/test/"
          (.chordSheet "Artist" "Song" "Intro: [G] [D]" none)]) :=
  ⟨rfl, rfl⟩

/-- C8: chord-block normalization is idempotent — on a block with no
remaining `<b>` emphasis markers the normalizer returns the block's plain
text unchanged. -/
theorem normalize_idempotent (ns : List PreNode)
    (h : ns.all (fun n => ! n.isB) = true) :
    normalizePre ns = preTextOf ns := by
  induction ns with
  | nil => rfl
  | cons n rest ih =>
    simp only [List.all_cons, Bool.and_eq_true] at h
    cases n with
    | text s =>
      simp only [normalizePre, preTextOf, ih h.2]
    | b s =>
      simp [PreNode.isB] at h

/-- C8 witness: the normalizer leaves a concrete already-normalized block
unchanged. -/
theorem normalize_idempotent_witness :
    normalizePre [.text "Intro: [G] [D]", .text "\nC7  F\n"] =
      preTextOf [.text "Intro: [G] [D]", .text "\nC7  F\n"] :=
  normalize_idempotent [.text "Intro: [G] [D]", .text "\nC7  F\n"] (by decide)

/-- C3 counterexample: on the spec's concrete candidates, deduplication keeps
the FIRST-SEEN entry, whose stored URL is the simplified one — not the
non-simplified URL the claim demands. -/
theorem search_dedup_counterexample :
    extractSearchResults dedupItems =
      [SearchResult.mk "X" "https://site/x/simplificada.html"] ∧
    extractSearchResults dedupItems ≠
      [SearchResult.mk "X" "https://site/x/"] := by
  refine ⟨rfl, ?_⟩
  decide

/-- C3 amended: deduplication collapses the `/simplificada.html` suffix to
form the canonical key and keeps exactly one entry per canonical URL — the
first-seen entry with its original URL — so the spec's concrete candidates
yield the single result `{title: "X", url: "https://site/x/simplificada.html"}`;
in general the canonical URLs of the output are pairwise distinct. -/
theorem search_dedup_amended :
    extractSearchResults dedupItems =
      [SearchResult.mk "X" "https://site/x/simplificada.html"] ∧
    ∀ items : List GoogleItem,
      ((extractSearchResults items).map (fun r => baseUrlOf r.url)).Nodup := by
  refine ⟨rfl, ?_⟩
  intro items
  have key : ∀ (l : List SearchResult) (seen : List String),
      ((dedupByBase l seen).map (fun r => baseUrlOf r.url)).Nodup ∧
      ∀ r ∈ dedupByBase l seen, baseUrlOf r.url ∉ seen := by
    intro l
    induction l with
    | nil => intro seen; exact ⟨List.nodup_nil, by simp [dedupByBase]⟩
    | cons it rest ih =>
      intro seen
      simp only [dedupByBase]
      by_cases hseen : seen.contains (baseUrlOf it.url) = true
      · rw [if_pos hseen]
        exact ih seen
      · rw [if_neg hseen]
        have hrec := ih (baseUrlOf it.url :: seen)
        constructor
        · rw [List.map_cons, List.nodup_cons]
          refine ⟨?_, hrec.1⟩
          intro hmem
          rcases List.mem_map.mp hmem with ⟨r, hr, hb⟩
          exact (hrec.2 r hr) (hb ▸ List.mem_cons_self _ _)
        · intro r hr
          rcases List.mem_cons.mp hr with rfl | hr
          · intro hc
            exact hseen (List.elem_iff.mpr hc)
          · intro hc
            exact (hrec.2 r hr) (List.mem_cons_of_mem _ hc)
  exact (key _ []).1

/-- C4 counterexample: on a page with no data island but with a YouTube embed
frame, /api/cifra leaves the videoId unset — the claimed fall-through to the
frame-derived identifier does not exist in that route (only the /api/scrape
revision extracts it). -/
theorem video_id_counterexample :
    extractVideoIdCifra framePage = none ∧
    extractContent framePage = .chordSheet "Artist" "Song" "A" none ∧
    extractVideoIdScrape framePage = some "dQw4w9WgXcQ" ∧
    (none : Option Json) ≠ some (Json.str "dQw4w9WgXcQ") := by
  refine ⟨rfl, rfl, rfl, ?_⟩
  simp

/-- C4 amended: /api/cifra recovers the video identifier from the JSON data
island only — primary path `props.pageProps.video.youtube_id`, then alternate
path `props.pageProps.songData.video.youtube_id` — and leaves it unset
whenever the island is absent, even if an embed frame is present; the
frame-based extraction (last path segment of the embed source, query string
stripped) exists only in the /api/scrape revision, where it is the sole
source. -/
theorem video_id_amended :
    (∀ p : Page, p.nextData = none → extractVideoIdCifra p = none) ∧
    extractVideoIdCifra primaryIslandPage = some (Json.str "abc123") ∧
    extractVideoIdCifra alternateIslandPage = some (Json.str "def456") ∧
    extractVideoIdScrape framePage = some "dQw4w9WgXcQ" := by
  refine ⟨?_, rfl, rfl, rfl⟩
  intro p h
  unfold extractVideoIdCifra
  rw [h]

/-- C4 witness: the amended statement applied to the concrete frame-bearing
page with no data island. -/
theorem video_id_witness : extractVideoIdCifra framePage = none :=
  video_id_amended.1 framePage rfl

/-- C5 counterexample: with the search-API configuration missing, /api/search
surfaces a hard 500 failure; and on a thrown error the caller receives a
singleton `[DEBUG]` placeholder, not an empty result set. -/
theorem search_error_counterexample :
    handleSearch (some "adele") none none (.ok []) =
      .error 500 "Configuração da API do Google ausente no servidor." ∧
    handleSearch (some "adele") (some "k") (some "cx") (.thrown "boom") =
      .ok [SearchResult.mk "[DEBUG] Erro Interno: boom" "#"] ∧
    [SearchResult.mk "[DEBUG] Erro Interno: boom" "#"] ≠
      ([] : List SearchResult) := by
  refine ⟨rfl, rfl, ?_⟩
  decide

/-- C5 amended: when the search-API configuration (key or engine id) is
missing, /api/search returns a hard 500 failure with an error payload; when
configuration is present, a non-success upstream response or any thrown error
degrades to an HTTP 200 carrying a single `[DEBUG] Erro Interno:` placeholder
entry (never an empty list, never an error status); a successful upstream
call yields the mapped, deduplicated results. -/
theorem search_error_amended (q k cx : Option String) (st msg : String)
    (items : List GoogleItem) (hq : optTruthy q = true)
    (hk : optTruthy k = true) (hcx : optTruthy cx = true) :
    (∀ up, handleSearch q none cx up =
      .error 500 "Configuração da API do Google ausente no servidor.") ∧
    handleSearch q k cx (.httpError st) =
      .ok [SearchResult.mk
        ("[DEBUG] Erro Interno: Erro na API do Google: " ++ st) "#"] ∧
    handleSearch q k cx (.thrown msg) =
      .ok [SearchResult.mk ("[DEBUG] Erro Interno: " ++ msg) "#"] ∧
    handleSearch q k cx (.ok items) = .ok (extractSearchResults items) := by
  constructor
  · intro up
    simp [handleSearch, hq, show optTruthy none = false from rfl]
  · refine ⟨?_, ?_, ?_⟩ <;> simp [handleSearch, hq, hk, hcx]

/-- C5 witness: the amended statement applied at concrete inputs. -/
theorem search_error_witness :
    handleSearch (some "adele") none (some "cx") (.ok []) =
      .error 500 "Configuração da API do Google ausente no servidor." ∧
    handleSearch (some "adele") (some "k") (some "cx") (.thrown "boom") =
      .ok [SearchResult.mk "[DEBUG] Erro Interno: boom" "#"] := by
  have h := search_error_amended (some "adele") (some "k") (some "cx")
    "Not Found" "boom" [] rfl rfl rfl
  exact ⟨h.1 _, h.2.2.1⟩

/-- C1: a page whose preformatted block is empty after normalization but whose
top-songs list is non-empty classifies as ArtistListing, never ChordSheet;
and any ChordSheet result carries a non-empty normalized block text. -/
theorem chord_empty_block_guard (p : Page) (h1 : cifraContent p = some "")
    (h2 : p.topSongs ≠ []) :
    extractContent p = .artistListing p.h1 (p.topSongs.map
      (fun ts => SongEntry.mk ts.1 ("https://www.cifraclub.com.br" ++ ts.2))) ∧
    ∀ (q : Page) (a s c : String) (v : Option Json),
      extractContent q = .chordSheet a s c v →
        cifraContent q = some c ∧ c.data ≠ [] := by
  constructor
  · cases htop : p.topSongs with
    | nil => exact absurd htop h2
    | cons t ts =>
      simp [extractContent, h1, artistOrNot, htop]
  · intro q a s c v h
    unfold extractContent at h
    split at h
    case h_1 c' heq =>
      split at h
      · exact absurd h (by unfold artistOrNot; split <;> simp)
      · case isFalse hne =>
          injection h with ha hs hcc hv
          subst hcc
          exact ⟨heq, by simpa using hne⟩
    case h_2 heq =>
      exact absurd h (by unfold artistOrNot; split <;> simp)

/-- C1 witness: a concrete landing page with an empty chord block and one top
song is classified as an artist listing. -/
theorem chord_empty_block_guard_witness :
    extractContent landingPage = .artistListing "Artist"
      [SongEntry.mk "Song A" "https://www.cifraclub.com.br/artist/song-a/"] :=
  (chord_empty_block_guard landingPage rfl (by decide)).1

/-- Dropping a malformed data island does not change the classification:
`cifraContent`, the headings and the songs list ignore it, and the video id
is `none` either way. -/
theorem extractContent_island_indep (p : Page)
    (h : p.nextData = some (Except.error ())) :
    extractContent p = extractContent { p with nextData := none } := by
  have hv : extractVideoIdCifra p = none := by
    unfold extractVideoIdCifra
    rw [h]
  have hv' : extractVideoIdCifra { p with nextData := none } = none := rfl
  have hcc : cifraContent { p with nextData := none } = cifraContent p := rfl
  have han : artistOrNot { p with nextData := none } = artistOrNot p := rfl
  have hal : ({ p with nextData := none } : Page).artistLink = p.artistLink := rfl
  have hh1 : ({ p with nextData := none } : Page).h1 = p.h1 := rfl
  unfold extractContent
  simp only [hcc, han, hal, hh1, hv, hv']

/-- C7: for a page whose embedded JSON data island is malformed, /api/cifra
answers exactly as it would for the same page without the island, with the
video id unset — the parse failure is swallowed and never surfaces. -/
theorem malformed_island_swallowed (p : Page) (raw : String)
    (cache : String → Option CacheEntry) (now : Nat)
    (h : p.nextData = some (Except.error ())) :
    handleCifra (some raw) cache now (fun _ => .ok p) =
      handleCifra (some raw) cache now
        (fun _ => .ok { p with nextData := none }) ∧
    extractVideoIdCifra p = none := by
  have hext := extractContent_island_indep p h
  constructor
  · unfold handleCifra
    by_cases hr : raw.data.isEmpty = true
    · simp [hr]
    · simp only [hr, Bool.false_eq_true, if_false, if_neg, not_false_iff]
      unfold handleCifraClean
      by_cases hg : strIncludes (cleanUrl raw) "cifraclub.com.br" = true
      · simp only [hg, Bool.not_true, Bool.false_eq_true, if_false]
        cases hcl : cacheLookup cache (cleanUrl raw) now with
        | some d => simp
        | none => simp [hext]
      · simp [hg]
  · unfold extractVideoIdCifra
    rw [h]

/-- C7 witness: the theorem applied to the concrete malformed-island page. -/
theorem malformed_island_swallowed_witness :
    handleCifra (some "https://www.cifraclub.com.br/a/") (fun _ => none) 0
        (fun _ => .ok malformedIslandPage) =
      handleCifra (some "https://www.cifraclub.com.br/a/") (fun _ => none) 0
        (fun _ => .ok { malformedIslandPage with nextData := none }) ∧
    extractVideoIdCifra malformedIslandPage = none :=
  malformed_island_swallowed malformedIslandPage
    "https://www.cifraclub.com.br/a/" (fun _ => none) 0 rfl

/-- C6: the /api/cifra cache is read-through with a one-hour window: the
cache is consulted first (the first event is always the cache query); a
fresh entry is served without fetching; an entry at least one hour old is a
miss and the fetch runs; a successful ChordSheet/ArtistListing
classification is written back; NotFound and transport errors leave the
cache untouched (no write event). -/
theorem cifra_cache_read_through (u : String)
    (cache : String → Option CacheEntry) (now : Nat)
    (f : String → FetchResult)
    (hdom : strIncludes u "cifraclub.com.br" = true) :
    CACHE_DURATION_MS = 3600000 ∧
    (∀ e, cache u = some e → now - e.timestamp < CACHE_DURATION_MS →
      handleCifraClean u cache now f = (.payload e.data, [.cacheQuery u])) ∧
    (∀ e, cache u = some e → ¬ now - e.timestamp < CACHE_DURATION_MS →
      CifraEvent.fetchCall u ∈ (handleCifraClean u cache now f).2) ∧
    (∀ p, cacheLookup cache u now = none → f u = .ok p →
      extractContent p ≠ .notFound →
      handleCifraClean u cache now f =
        (.payload (extractContent p),
         [.cacheQuery u, .fetchCall u, .cacheWrite u (extractContent p)])) ∧
    (∀ p, cacheLookup cache u now = none → f u = .ok p →
      extractContent p = .notFound →
      handleCifraClean u cache now f =
        (.error 404
          "Nenhum conteúdo de cifra ou lista de músicas foi encontrado na página.",
         [.cacheQuery u, .fetchCall u])) ∧
    (∀ st, cacheLookup cache u now = none → f u = .httpError st →
      handleCifraClean u cache now f =
        (.error 500 ("Erro ao carregar a página da cifra: " ++ st),
         [.cacheQuery u, .fetchCall u])) ∧
    (∀ m, cacheLookup cache u now = none → f u = .networkError m →
      handleCifraClean u cache now f =
        (.error 500 m, [.cacheQuery u, .fetchCall u])) ∧
    (handleCifraClean u cache now f).2.head? = some (.cacheQuery u) := by
  refine ⟨rfl, ?_, ?_, ?_, ?_, ?_, ?_, ?_⟩
  · intro e he hfresh
    have hl : cacheLookup cache u now = some e.data := by
      simp [cacheLookup, he, hfresh]
    unfold handleCifraClean
    simp [hdom, hl]
  · intro e he hstale
    have hl : cacheLookup cache u now = none := by
      simp [cacheLookup, he, hstale]
    unfold handleCifraClean
    simp only [hdom, Bool.not_true, Bool.false_eq_true, if_false, hl]
    cases hf : f u with
    | ok page => cases hr : extractContent page <;> simp [hr]
    | httpError st => simp
    | networkError m => simp
  · intro p hmiss hfu hnot
    unfold handleCifraClean
    simp only [hdom, Bool.not_true, Bool.false_eq_true, if_false, hmiss, hfu]
  · intro p hmiss hfu hnf
    unfold handleCifraClean
    simp [hdom, hmiss, hfu, hnf]
  · intro st hmiss hfu
    unfold handleCifraClean
    simp [hdom, hmiss, hfu]
  · intro m hmiss hfu
    unfold handleCifraClean
    simp [hdom, hmiss, hfu]
  · unfold handleCifraClean
    simp only [hdom, Bool.not_true, Bool.false_eq_true, if_false]
    cases hcl : cacheLookup cache u now with
    | some d => simp
    | none =>
      cases hf : f u with
      | ok page => cases hr : extractContent page <;> simp [hr]
      | httpError st => simp
      | networkError m => simp

/-- C6 witness: a fresh cached entry is served straight from the cache, with
no fetch event. -/
theorem cifra_cache_read_through_witness :
    handleCifraClean "https://www.cifraclub.com.br/a/"
        (fun _ => some (CacheEntry.mk (.artistListing "A" []) 0)) 10
        (fun _ => .httpError "e") =
      (.payload (.artistListing "A" []),
       [.cacheQuery "https://www.cifraclub.com.br/a/"]) :=
  (cifra_cache_read_through "https://www.cifraclub.com.br/a/"
      (fun _ => some (CacheEntry.mk (.artistListing "A" []) 0)) 10
      (fun _ => .httpError "e") rfl).2.1
    (CacheEntry.mk (.artistListing "A" []) 0) rfl (by decide)

/-- C9 counterexample: a URL whose host is `evil.com` but whose path contains
the text `cifraclub.com.br` does not belong to the target domain, yet
/api/cifra accepts it — the cache is queried and the fetch is reached — so
the substring check does not restrict the fetch to the target domain. -/
theorem domain_check_counterexample :
    specBelongsToCifraClub "https://evil.com/cifraclub.com.br" = false ∧
    handleCifra (some "https://evil.com/cifraclub.com.br") (fun _ => none) 0
        (fun _ => .httpError "Not Found") =
      (.error 500 "Erro ao carregar a página da cifra: Not Found",
       [.cacheQuery "https://evil.com/cifraclub.com.br",
        .fetchCall "https://evil.com/cifraclub.com.br"]) :=
  ⟨rfl, rfl⟩

/-- C9 amended: /api/cifra rejects with HTTP 400 — before any cache access or
network call (the event list is empty) — exactly those requests whose cleaned
URL does not CONTAIN the substring `cifraclub.com.br`; conversely the fetch
is reached only for URLs containing that substring (a weaker condition than
belonging to the domain). -/
theorem domain_check_amended (raw : String)
    (cache : String → Option CacheEntry) (now : Nat) (f : String → FetchResult)
    (hne : raw.data.isEmpty = false) :
    (strIncludes (cleanUrl raw) "cifraclub.com.br" = false →
      handleCifra (some raw) cache now f =
        (.error 400 "A URL fornecida não é do Cifra Club.", [])) ∧
    (∀ u', CifraEvent.fetchCall u' ∈ (handleCifra (some raw) cache now f).2 →
      u' = cleanUrl raw ∧
      strIncludes (cleanUrl raw) "cifraclub.com.br" = true) := by
  constructor
  · intro hg
    unfold handleCifra handleCifraClean
    simp [hne, hg]
  · intro u' hmem
    unfold handleCifra handleCifraClean at hmem
    simp only [hne, Bool.false_eq_true, if_false] at hmem
    by_cases hg : strIncludes (cleanUrl raw) "cifraclub.com.br" = true
    · refine ⟨?_, hg⟩
      simp only [hg, Bool.not_true, Bool.false_eq_true, if_false] at hmem
      cases hcl : cacheLookup cache (cleanUrl raw) now with
      | some d =>
        rw [hcl] at hmem
        simp at hmem
      | none =>
        rw [hcl] at hmem
        cases hf : f (cleanUrl raw) with
        | ok page =>
          rw [hf] at hmem
          cases hr : extractContent page with
          | notFound =>
            simp [hr] at hmem
            exact hmem
          | chordSheet a s c v =>
            simp [hr] at hmem
            exact hmem
          | artistListing a songs =>
            simp [hr] at hmem
            exact hmem
        | httpError st =>
          rw [hf] at hmem
          simp at hmem
          exact hmem
        | networkError m =>
          rw [hf] at hmem
          simp at hmem
          exact hmem
    · have hgf : strIncludes (cleanUrl raw) "cifraclub.com.br" = false := by
        simpa using hg
      simp [hgf] at hmem

/-- C9 witness: a URL with no occurrence of the domain substring is rejected
with 400 and an empty event list. -/
theorem domain_check_witness :
    handleCifra (some "https://example.com/") (fun _ => none) 0
        (fun _ => .httpError "e") =
      (.error 400 "A URL fornecida não é do Cifra Club.", []) :=
  (domain_check_amended "https://example.com/" (fun _ => none) 0
      (fun _ => .httpError "e") rfl).1 rfl

/-- `dropWhile isWhitespace` keeps a list whose head is not whitespace. -/
theorem trimFront_cons_of_not_ws (a : Char) (l : List Char)
    (h : a.isWhitespace = false) : trimFront (a :: l) = a :: l := by
  simp [trimFront, List.dropWhile_cons, h]

/-- The leading-quote stripper keeps a list whose head is not a quote. -/
theorem dropLeadQuote_cons_of_ne (a : Char) (l : List Char) (h : a ≠ '"') :
    dropLeadQuote (a :: l) = a :: l := by
  simp [dropLeadQuote, h]

/-- URL cleaning is the identity on a string whose first and last characters
are neither whitespace nor a double quote. -/
theorem cleanUrlList_eq_self (l : List Char) (c d : Char) (cs ds : List Char)
    (hl : l = c :: cs) (hlr : l.reverse = d :: ds)
    (hcw : c.isWhitespace = false) (hdw : d.isWhitespace = false)
    (hcq : c ≠ '"') (hdq : d ≠ '"') :
    cleanUrlList l = l := by
  have ht : jsTrimList l = l := by
    unfold jsTrimList
    rw [hl, trimFront_cons_of_not_ws c cs hcw, ← hl, hlr,
      trimFront_cons_of_not_ws d ds hdw, ← hlr, List.reverse_reverse]
  unfold cleanUrlList
  rw [ht, hl, dropLeadQuote_cons_of_ne c cs hcq, ← hl, hlr,
    dropLeadQuote_cons_of_ne d ds hdq, ← hlr, List.reverse_reverse]

/-- URL cleaning removes exactly one surrounding pair of double quotes. -/
theorem cleanUrlList_quoted (l : List Char) :
    cleanUrlList ('"' :: l ++ ['"']) = l := by
  have hq : ('"' : Char).isWhitespace = false := by decide
  have h0 : ('"' :: l ++ ['"'] : List Char) = '"' :: (l ++ ['"']) := by simp
  have ht : jsTrimList ('"' :: (l ++ ['"'])) = '"' :: (l ++ ['"']) := by
    unfold jsTrimList
    rw [trimFront_cons_of_not_ws _ _ hq]
    rw [show ('"' :: (l ++ ['"'])).reverse = '"' :: (l.reverse ++ ['"'])
      from by simp]
    rw [trimFront_cons_of_not_ws _ _ hq]
    rw [show ('"' :: (l.reverse ++ ['"'])).reverse = '"' :: (l ++ ['"'])
      from by simp]
  unfold cleanUrlList
  rw [h0, ht]
  rw [show dropLeadQuote ('"' :: (l ++ ['"'])) = l ++ ['"']
    from by simp [dropLeadQuote]]
  rw [show (l ++ ['"'] : List Char).reverse = '"' :: l.reverse from by simp]
  rw [show dropLeadQuote ('"' :: l.reverse) = l.reverse
    from by simp [dropLeadQuote]]
  exact List.reverse_reverse l

/-- URL cleaning removes surrounding whitespace padding from a string whose
own ends are neither whitespace nor quotes. -/
theorem cleanUrlList_padded (l : List Char) (c d : Char) (cs ds : List Char)
    (hl : l = c :: cs) (hlr : l.reverse = d :: ds)
    (hcw : c.isWhitespace = false) (hdw : d.isWhitespace = false)
    (hcq : c ≠ '"') (hdq : d ≠ '"') :
    cleanUrlList (' ' :: ' ' :: l ++ [' ', ' ']) = l := by
  have hsp : (' ' : Char).isWhitespace = true := by decide
  have ht : jsTrimList (' ' :: ' ' :: l ++ [' ', ' ']) = l := by
    unfold jsTrimList trimFront
    rw [show (' ' :: ' ' :: l ++ [' ', ' '] : List Char) =
      ' ' :: ' ' :: (l ++ [' ', ' ']) from by simp]
    rw [List.dropWhile_cons_of_pos hsp, List.dropWhile_cons_of_pos hsp]
    rw [hl]
    rw [show ((c :: cs) ++ [' ', ' '] : List Char) = c :: (cs ++ [' ', ' '])
      from by simp]
    rw [List.dropWhile_cons_of_neg (by simp [hcw])]
    rw [show (c :: (cs ++ [' ', ' '])).reverse =
      ' ' :: ' ' :: ((c :: cs).reverse) from by simp]
    rw [List.dropWhile_cons_of_pos hsp, List.dropWhile_cons_of_pos hsp]
    rw [← hl, hlr]
    rw [List.dropWhile_cons_of_neg (by simp [hdw])]
    rw [← hlr, List.reverse_reverse]
  unfold cleanUrlList
  rw [ht, hl, dropLeadQuote_cons_of_ne c cs hcq, ← hl, hlr,
    dropLeadQuote_cons_of_ne d ds hdq, ← hlr, List.reverse_reverse]

/-- C10: before the domain check, /api/cifra trims the `url` parameter and
strips one leading and one trailing double quote, so a URL wrapped in quotes
or padded with spaces is cleaned back to the bare URL and handled exactly as
the bare URL is (for any bare URL whose ends are neither whitespace nor
quotes). -/
theorem url_cleaning (u : String) (c d : Char) (cs ds : List Char)
    (cache : String → Option CacheEntry) (now : Nat) (f : String → FetchResult)
    (hu : u.data = c :: cs) (hrev : u.data.reverse = d :: ds)
    (hcw : c.isWhitespace = false) (hdw : d.isWhitespace = false)
    (hcq : c ≠ '"') (hdq : d ≠ '"') :
    cleanUrl ("\"" ++ u ++ "\"") = u ∧
    cleanUrl ("  " ++ u ++ "  ") = u ∧
    handleCifra (some ("\"" ++ u ++ "\"")) cache now f =
      handleCifra (some u) cache now f ∧
    handleCifra (some ("  " ++ u ++ "  ")) cache now f =
      handleCifra (some u) cache now f := by
  have hqdata : ("\"" ++ u ++ "\"").data = '"' :: u.data ++ ['"'] := by
    simp [String.data_append]
  have hpdata : ("  " ++ u ++ "  ").data = ' ' :: ' ' :: u.data ++ [' ', ' '] := by
    simp [String.data_append]
  have hq : cleanUrl ("\"" ++ u ++ "\"") = u := by
    unfold cleanUrl
    rw [hqdata, cleanUrlList_quoted]
  have hp : cleanUrl ("  " ++ u ++ "  ") = u := by
    unfold cleanUrl
    rw [hpdata, cleanUrlList_padded u.data c d cs ds hu hrev hcw hdw hcq hdq]
  have hself : cleanUrl u = u := by
    unfold cleanUrl
    rw [cleanUrlList_eq_self u.data c d cs ds hu hrev hcw hdw hcq hdq]
  have hqne : ("\"" ++ u ++ "\"").data.isEmpty = false := by
    rw [hqdata]
    rfl
  have hpne : ("  " ++ u ++ "  ").data.isEmpty = false := by
    rw [hpdata]
    rfl
  have hune : u.data.isEmpty = false := by
    rw [hu]
    rfl
  refine ⟨hq, hp, ?_, ?_⟩
  · unfold handleCifra
    simp only [hqne, hune, Bool.false_eq_true, if_false, hq, hself]
  · unfold handleCifra
    simp only [hpne, hune, Bool.false_eq_true, if_false, hp, hself]

/-- C10 witness: the theorem applied to a concrete one-character URL. -/
theorem url_cleaning_witness :
    cleanUrl "\"x\"" = "x" ∧
    cleanUrl "  x  " = "x" ∧
    handleCifra (some "\"x\"") (fun _ => none) 0 (fun _ => .httpError "e") =
      handleCifra (some "x") (fun _ => none) 0 (fun _ => .httpError "e") ∧
    handleCifra (some "  x  ") (fun _ => none) 0 (fun _ => .httpError "e") =
      handleCifra (some "x") (fun _ => none) 0 (fun _ => .httpError "e") :=
  url_cleaning "x" 'x' 'x' [] [] (fun _ => none) 0 (fun _ => .httpError "e")
    rfl rfl (by decide) (by decide) (by decide) (by decide)

end CifrasApi
